import Mathlib

/-!
# Verification of the CPI inflation-metrics and contribution-decomposition engine

Shallow embedding of the analytic core of the `streamlit-cpi-analysis`
repository.  Index levels, change rates and weights are modelled as exact
rationals (`ℚ`); pandas `NaN` cells (undefined change rates) are modelled as
`Option ℚ` with `none` for an absent value; timestamps are modelled as
natural numbers counting months since an arbitrary epoch, so that the
source's `pd.DateOffset(years=1)` becomes a shift by 12 on the month grid.

Embedded source functions (names kept from the source):
* `src/config/settings.py`  : `FREQUENCY_PERIODS`, `CPI_CONTRIBUTION_CATEGORIES`
* `src/data/processor.py`   : `get_periods_for_frequency`,
  `calculate_yoy_monthly_data`, `calculate_inflation_metrics`,
  `get_inflation_trend_status`
* `src/analysis/contribution.py` : `calculate_contribution_data_for_categories`,
  `filter_contribution_by_categories`
* `cpi-analytics-app.py` (`create_stacked_histogram`, lines 427-452) :
  the y-axis display-range computation, embedded as `computeYRange`.

The source's floating point arithmetic is modelled by exact rational
arithmetic.  `pandas.Series.std()` (used for the volatility metric) takes a
real square root, which has no computable counterpart on `ℚ`; the embedding
tracks the *square* of that metric (`volatility_sq`, the sample variance
scaled by `100²`).  Squaring is injective on nonnegative reals, so every
comparison between the code's volatility and a claimed volatility is
faithfully decided at the level of these squares.
-/

/-- One raw observation row: the columns of the warehouse time series that the
engine reads (`PRODUCT`, `DATE`, `VALUE`, `FREQUENCY`).  `date` counts months
since an arbitrary epoch. -/
structure Row where
  product : String
  date : ℕ
  value : ℚ
  frequency : String
deriving DecidableEq, Repr

/-- Insert a row into a date-sorted list, keeping it sorted (rows with equal
dates keep their relative order). -/
def insertByDate (r : Row) : List Row → List Row
  | [] => [r]
  | x :: xs => if x.date ≤ r.date then x :: insertByDate r xs else r :: x :: xs

/-- `df.sort_values('DATE')`: sort rows by ascending date (insertion sort). -/
def sortByDate : List Row → List Row
  | [] => []
  | x :: xs => insertByDate x (sortByDate xs)

/-- First occurrences of each element, in order: `pandas.Series.unique()`. -/
def uniqueAux : List ℕ → List ℕ → List ℕ
  | [], _ => []
  | x :: xs, seen =>
      if decide (x ∈ seen) then uniqueAux xs seen else x :: uniqueAux xs (x :: seen)

/-- `pandas.Series.unique()` on a list of dates. -/
def uniqueFirst (l : List ℕ) : List ℕ := uniqueAux l []

/-- Arithmetic mean of a list of rationals (`pandas.Series.mean()`). -/
def listMean (l : List ℚ) : ℚ := l.sum / l.length

/-- Population variance: mean squared deviation (`ddof = 0`). -/
def popVar (l : List ℚ) : ℚ :=
  (l.map fun x => (x - listMean l) ^ 2).sum / l.length

/-- Sample variance (`ddof = 1`), the square of `pandas.Series.std()`. -/
def sampleVar (l : List ℚ) : ℚ :=
  (l.map fun x => (x - listMean l) ^ 2).sum / ((l.length : ℚ) - 1)

/-- `pandas.Series.pct_change(periods := N)`: entry `i` is
`v[i] / v[i-N] - 1` when at least `N` earlier entries exist, otherwise
undefined (`NaN` in the source, `none` here). -/
def pctChange (N : ℕ) (v : List ℚ) : List (Option ℚ) :=
  (List.range v.length).map fun i =>
    if N ≤ i then some (v.getD i 0 / v.getD (i - N) 0 - 1) else none

/-- A `pct_change(periods := N) * 100` column (year-over-year percentages). -/
def yoyList (N : ℕ) (v : List ℚ) : List (Option ℚ) :=
  (pctChange N v).map (Option.map (· * 100))

/-- `pct_change().dropna()`: the defined month-over-month fractional changes. -/
def pctList (v : List ℚ) : List ℚ := (pctChange 1 v).filterMap id

/-- `FREQUENCY_PERIODS` from `src/config/settings.py`. -/
def FREQUENCY_PERIODS : List (String × ℕ) :=
  [("Monthly", 12), ("Quarterly", 4), ("Semi-annual", 2), ("Annual", 1)]

/-- `get_periods_for_frequency` from `src/data/processor.py`:
`FREQUENCY_PERIODS.get(frequency, 12)`. -/
def get_periods_for_frequency (frequency : String) : ℕ :=
  ((FREQUENCY_PERIODS.find? fun p => decide (p.1 = frequency)).map (·.2)).getD 12

/-- One output row of `calculate_yoy_monthly_data`: the input row plus the
`YoY_Change`, `MoM_Change`, `Year`, `Month` and `Month_Name` columns. -/
structure YRow where
  date : ℕ
  value : ℚ
  yoyChange : Option ℚ
  momChange : Option ℚ
  year : ℕ
  month : ℕ
  monthName : String
deriving DecidableEq, Repr

/-- Month abbreviations produced by `strftime('%b')`. -/
def monthAbbrev (m : ℕ) : String :=
  (["Jan", "Feb", "Mar", "Apr", "May", "Jun",
    "Jul", "Aug", "Sep", "Oct", "Nov", "Dec"].getD (m - 1) "")

/-- `calculate_yoy_monthly_data` from `src/data/processor.py`: sort by date,
then add `pct_change(periods := 12) * 100` (hard-coded 12 in the source),
`pct_change() * 100`, and the calendar columns.  With `date` counting months
since the epoch, the year is `date / 12` and the month is `date % 12 + 1`. -/
def calculate_yoy_monthly_data (df : List Row) : List YRow :=
  if df.isEmpty then [] else
  let s := sortByDate df
  let v := s.map (·.value)
  let yoys := yoyList 12 v
  let moms := (pctChange 1 v).map (Option.map (· * 100))
  s.enum.map fun p =>
    { date := p.2.date
      value := p.2.value
      yoyChange := (yoys.getD p.1 none)
      momChange := (moms.getD p.1 none)
      year := p.2.date / 12
      month := p.2.date % 12 + 1
      monthName := monthAbbrev (p.2.date % 12 + 1) }

/-- The metrics dictionary built by `calculate_inflation_metrics`; an absent
dictionary key is `none`.  `volatility_sq` is the square of the source's
`volatility` entry (see the file header). -/
structure Metrics where
  monthly_change : Option ℚ
  yearly_change : Option ℚ
  quarterly_change : Option ℚ
  volatility_sq : Option ℚ
  current_level : Option ℚ
  latest_date : Option ℕ
deriving DecidableEq, Repr

/-- The empty metrics dictionary `{}`. -/
def emptyMetrics : Metrics := ⟨none, none, none, none, none, none⟩

/-- `calculate_inflation_metrics` from `src/data/processor.py`.  The source's
`df['DATE'].max() - pd.DateOffset(years=1)` becomes `maxDate - 12` on the
month grid.  All divisions are modelled by total rational division (the
source performs unguarded float divisions). -/
def calculate_inflation_metrics (df : List Row) : Metrics :=
  if df.isEmpty then emptyMetrics else
  let s := sortByDate df
  let v := s.map (·.value)
  let n := v.length
  let latest := v.getD (n - 1) 0
  let monthly : Option ℚ :=
    if 2 ≤ n then some ((latest - v.getD (n - 2) 0) / v.getD (n - 2) 0 * 100) else none
  let maxDate := (s.map (·.date)).foldr max 0
  let older := s.filter fun r => decide (r.date ≤ maxDate - 12)
  let yearly : Option ℚ :=
    if older.isEmpty then none else
      let ya := (older.map (·.value)).getD (older.length - 1) 0
      some ((latest - ya) / ya * 100)
  let quarterly : Option ℚ :=
    if 4 ≤ n then
      let recent3 := listMean (v.drop (n - 3))
      let prev3 := if 6 ≤ n then listMean ((v.drop (n - 6)).take 3) else recent3
      some ((recent3 - prev3) / prev3 * 100)
    else none
  let vol : Option ℚ :=
    if 12 ≤ n then some (sampleVar (pctList v) * 10000) else none
  { monthly_change := monthly
    yearly_change := yearly
    quarterly_change := quarterly
    volatility_sq := vol
    current_level := some latest
    latest_date := some maxDate }

/-- `get_inflation_trend_status` from `src/data/processor.py`. -/
def get_inflation_trend_status (yearly_change : ℚ) : String :=
  if 3 < yearly_change then "⬆️ 高インフレ"
  else if 1 < yearly_change then "📈 適度"
  else if 0 < yearly_change then "📊 低水準"
  else "⬇️ デフレ"

/-! ## Contribution decomposition (`src/analysis/contribution.py`) -/

/-- One category record of `CPI_CONTRIBUTION_CATEGORIES`
(`src/config/settings.py`). -/
structure CategoryInfo where
  name : String
  products : List String
  weight : ℚ
  color : String
deriving DecidableEq, Repr

/-- `CPI_CONTRIBUTION_CATEGORIES` from `src/config/settings.py`, in the
source's dictionary insertion order. -/
def CPI_CONTRIBUTION_CATEGORIES : List CategoryInfo :=
  [⟨"Core Services",
    ["Services less energy services", "Shelter", "Transportation services"],
    58 / 100, "#4E8397"⟩,
   ⟨"Core Goods",
    ["Commodities less food and energy commodities", "New vehicles",
     "Used vehicles and trucks"],
    20 / 100, "#845EC2"⟩,
   ⟨"Food",
    ["Food", "Food at home", "Food away from home"],
    14 / 100, "#F18F01"⟩,
   ⟨"Energy",
    ["Energy", "Energy commodities", "Energy services", "Gasoline (all types)"],
    8 / 100, "#C73E1D"⟩]

/-- One output row of `calculate_contribution_data_for_categories`: the
columns `DATE`, `Category`, `Contribution`, `Weight`, `YoY_Change`, `Color`,
`All_Items_YoY`, `Core_CPI_YoY`. -/
structure CPoint where
  date : ℕ
  category : String
  contribution : ℚ
  weight : ℚ
  yoyChange : ℚ
  color : String
  allItemsYoY : ℚ
  coreCpiYoY : Option ℚ
deriving DecidableEq, Repr

/-- The representative product the source's `if/elif` chain looks up for each
category name (`contribution.py` lines 66-73); `none` for any other name. -/
def repName (categoryName : String) : Option String :=
  if categoryName = "Core Services" then some "Services less energy services"
  else if categoryName = "Core Goods" then
    some "Commodities less food and energy commodities"
  else if categoryName = "Food" then some "Food"
  else if categoryName = "Energy" then some "Energy"
  else none

/-- `product_historical` (`contribution.py` lines 77-78): the representative's
full history up to `date`, date-sorted. -/
def histOf (df : List Row) (rep : String) (date : ℕ) : List Row :=
  sortByDate (df.filter fun r => decide (r.product = rep ∧ r.date ≤ date))

/-- `year_ago_value` (`contribution.py` line 83): the representative's level
`periods` rows before the end of its history — the change-rate denominator. -/
def priorLevel (df : List Row) (periods : ℕ) (rep : String) (date : ℕ) : ℚ :=
  let vals := (histOf df rep date).map (·.value)
  vals.getD (vals.length - 1 - periods) 0

/-- `contribution.py` lines 77-84: the representative's own YoY at `date`,
recomputed from its full history up to `date`; `none` when fewer than
`periods + 1` historical rows exist. -/
def categoryYoY (df : List Row) (periods : ℕ) (rep : String) (date : ℕ) : Option ℚ :=
  let vals := (histOf df rep date).map (·.value)
  if periods + 1 ≤ (histOf df rep date).length then
    some ((vals.getD (vals.length - 1) 0 / priorLevel df periods rep date - 1) * 100)
  else none

/-- Look up the `YoY_Change` cell of the row with the given date: the source's
`frame[frame['DATE'] == date]['YoY_Change'].iloc[0]`, where `yoys` is the
`YoY_Change` column of `rows` (same order).  `none` when the date is absent or
the cell is `NaN`. -/
def yoyAt (rows : List Row) (yoys : List (Option ℚ)) (date : ℕ) : Option ℚ :=
  match (rows.zip yoys).find? (fun p => decide (p.1.date = date)) with
  | some p => p.2
  | none => none

/-- `df['PRODUCT'] == 'All items'` filter. -/
def allItemsOf (df : List Row) : List Row :=
  df.filter fun r => decide (r.product = "All items")

/-- The sorted `all_items_data`. -/
def allSortedOf (df : List Row) : List Row := sortByDate (allItemsOf df)

/-- `contribution.py` lines 27-32: the frequency is read from the first row of
the (unsorted) input frame, and mapped to a period count. -/
def periodsOf (df : List Row) : ℕ :=
  get_periods_for_frequency (((df.head?).map (·.frequency)).getD "Monthly")

/-- The `YoY_Change` column of the sorted all-items frame. -/
def allYoYsOf (df : List Row) : List (Option ℚ) :=
  yoyList (periodsOf df) ((allSortedOf df).map (·.value))

/-- `show_core_cpi = selected_categories is None or '🎯 Core CPI' in
selected_categories`. -/
def showCoreOf : Option (List String) → Bool
  | none => true
  | some sel => decide ("🎯 Core CPI" ∈ sel)

/-- The sorted core-CPI frame (only materialized when core CPI is shown). -/
def coreSortedOf (sel : Option (List String)) (df : List Row) : List Row :=
  if showCoreOf sel then
    sortByDate (df.filter fun r => decide (r.product = "All items less food and energy"))
  else []

/-- The `YoY_Change` column of the sorted core-CPI frame. -/
def coreYoYsOf (sel : Option (List String)) (df : List Row) : List (Option ℚ) :=
  yoyList (periodsOf df) ((coreSortedOf sel df).map (·.value))

/-- `all_items_data['DATE'].unique()`, the dates the outer loop visits. -/
def datesOf (df : List Row) : List ℕ := uniqueFirst ((allSortedOf df).map (·.date))

/-- `all_items_yoy` at a loop date (`none` when the cell is `NaN`, in which
case the source `continue`s). -/
def allItemsYoYAt (df : List Row) (date : ℕ) : Option ℚ :=
  yoyAt (allSortedOf df) (allYoYsOf df) date

/-- The source's `user_start_date is None or date >= pd.to_datetime(...)`. -/
def startOk : Option ℕ → ℕ → Bool
  | none, _ => true
  | some s, d => decide (s ≤ d)

/-- The body of the inner category loop (`contribution.py` lines 59-107) for
one date and one category: `none` when no point is appended for that pair. -/
def emitPoint (df : List Row) (periods : ℕ) (showCore : Bool)
    (coreSorted : List Row) (coreYoYs : List (Option ℚ))
    (start : Option ℕ) (date : ℕ) (ay : ℚ) (cat : CategoryInfo) : Option CPoint :=
  let dateData := df.filter fun r => decide (r.date = date)
  let categoryData := dateData.filter fun r => decide (r.product ∈ cat.products)
  if categoryData.isEmpty then none else
  match repName cat.name with
  | none => none
  | some rep =>
    if categoryData.any (fun r => decide (r.product = rep)) then
      match categoryYoY df periods rep date with
      | none => none
      | some yoy =>
        let coreV : Option ℚ :=
          if showCore && !coreSorted.isEmpty then yoyAt coreSorted coreYoYs date
          else none
        if startOk start date then
          some ⟨date, cat.name, cat.weight * yoy, cat.weight, yoy, cat.color, ay, coreV⟩
        else none
    else none

/-- `calculate_contribution_data_for_categories` from
`src/analysis/contribution.py`: the double loop over the all-items dates and
the four configured categories, appending one `CPoint` per emitted pair. -/
def calculate_contribution_data_for_categories (df : List Row)
    (selectedCategories : Option (List String)) (userStartDate : Option ℕ) :
    List CPoint :=
  if df.isEmpty then [] else
  if (allItemsOf df).isEmpty then [] else
  (datesOf df).flatMap fun date =>
    match allItemsYoYAt df date with
    | none => []
    | some ay =>
        CPI_CONTRIBUTION_CATEGORIES.filterMap
          (emitPoint df (periodsOf df) (showCoreOf selectedCategories)
            (coreSortedOf selectedCategories df) (coreYoYsOf selectedCategories df)
            userStartDate date ay)

/-- The `category_mapping` dictionary of `filter_contribution_by_categories`. -/
def category_mapping : List (String × String) :=
  [("⚡ Energy", "Energy"), ("🍎 Food", "Food"),
   ("📦 Core Goods", "Core Goods"), ("🏠 Core Services", "Core Services")]

/-- `filter_contribution_by_categories` from `src/analysis/contribution.py`.
An empty `selected` list plays the role of the source's falsy
`selected_categories`. -/
def filter_contribution_by_categories (contribution_df : List CPoint)
    (selected : List String) : List CPoint :=
  if contribution_df.isEmpty || selected.isEmpty then contribution_df else
  let mapped := selected.filterMap fun c =>
    (category_mapping.find? fun q => decide (q.1 = c)).map (·.2)
  if !mapped.isEmpty then
    contribution_df.filter fun p => decide (p.category ∈ mapped)
  else contribution_df

/-! ## Chart display range (`cpi-analytics-app.py`, `create_stacked_histogram`) -/

/-- Python's `abs` on a rational. -/
def absQ (x : ℚ) : ℚ := if x < 0 then -x else x

/-- Python's `min` over a non-empty list (0 for the empty list, unreached). -/
def listMin : List ℚ → ℚ
  | [] => 0
  | x :: xs => xs.foldl min x

/-- Python's `max` over a non-empty list (0 for the empty list, unreached). -/
def listMax : List ℚ → ℚ
  | [] => 0
  | x :: xs => xs.foldl max x

/-- The pooled values of the range computation: the finite, non-extreme
(`abs(x) < 1000`) data (`NaN` cells have no counterpart on `ℚ`). -/
def validData (values : List ℚ) : List ℚ :=
  values.filter fun x => decide (absQ x < 1000)

/-- The pre-correction range (`cpi-analytics-app.py` lines 433-444): margin
padding when the data spans more than 0.1, otherwise center ± 1. -/
def rawRange (ymin ymax : ℚ) : ℚ × ℚ :=
  if 1 / 10 < ymax - ymin then
    (ymin - max ((ymax - ymin) * (15 / 100)) (1 / 2),
     ymax + max ((ymax - ymin) * (15 / 100)) (1 / 2))
  else ((ymin + ymax) / 2 - 1, (ymin + ymax) / 2 + 1)

/-- The zero-inclusion correction on the lower bound (line 447-448):
`if y_range[0] > 0.1: y_range[0] = min(y_range[0], -0.2)`. -/
def clampLo (lo : ℚ) : ℚ := if 1 / 10 < lo then min lo (-(2 / 10)) else lo

/-- The zero-inclusion correction on the upper bound (line 449-450):
`if y_range[1] < -0.1: y_range[1] = max(y_range[1], 0.2)`. -/
def clampHi (hi : ℚ) : ℚ := if hi < -(1 / 10) then max hi (2 / 10) else hi

/-- The y-axis range computation of `create_stacked_histogram`
(`cpi-analytics-app.py` lines 427-452): pool the finite, non-extreme values,
pad by a margin (or center a near-constant band), then apply the
zero-inclusion correction; `[-1, 5]` when nothing remains after pooling. -/
def computeYRange (values : List ℚ) : ℚ × ℚ :=
  if (validData values).isEmpty then (-1, 5) else
  let r := rawRange (listMin (validData values)) (listMax (validData values))
  (clampLo r.1, clampHi r.2)

/-! ## Concrete inputs used by the witnesses and counterexamples -/

/-- Annual-frequency frame: `All items` constant, `Energy` rising 10% over the
one-period lag, so the Energy representative's YoY at date 1 is exactly 10%. -/
def dfC1 : List Row :=
  [⟨"All items", 0, 100, "Annual"⟩, ⟨"All items", 1, 100, "Annual"⟩,
   ⟨"Energy", 0, 100, "Annual"⟩, ⟨"Energy", 1, 110, "Annual"⟩]

/-- The single contribution point the engine emits for `dfC1`. -/
def ptC1 : CPoint := ⟨1, "Energy", 4 / 5, 2 / 25, 10, "#C73E1D", 0, none⟩

/-- Annual-frequency frame whose `Energy` prior level (the change-rate
denominator at date 1) is zero. -/
def dfC4 : List Row :=
  [⟨"All items", 0, 100, "Annual"⟩, ⟨"All items", 1, 100, "Annual"⟩,
   ⟨"Energy", 0, 0, "Annual"⟩, ⟨"Energy", 1, 100, "Annual"⟩]

/-- The Energy record of `CPI_CONTRIBUTION_CATEGORIES`. -/
def energyCategory : CategoryInfo :=
  ⟨"Energy", ["Energy", "Energy commodities", "Energy services", "Gasoline (all types)"],
   8 / 100, "#C73E1D"⟩

/-- 13 monthly observations with one non-constant step, so the sample and
population variances of the 12 month-over-month changes differ. -/
def dfC5 : List Row :=
  [⟨"x", 0, 1, "Monthly"⟩, ⟨"x", 1, 2, "Monthly"⟩, ⟨"x", 2, 2, "Monthly"⟩,
   ⟨"x", 3, 2, "Monthly"⟩, ⟨"x", 4, 2, "Monthly"⟩, ⟨"x", 5, 2, "Monthly"⟩,
   ⟨"x", 6, 2, "Monthly"⟩, ⟨"x", 7, 2, "Monthly"⟩, ⟨"x", 8, 2, "Monthly"⟩,
   ⟨"x", 9, 2, "Monthly"⟩, ⟨"x", 10, 2, "Monthly"⟩, ⟨"x", 11, 2, "Monthly"⟩,
   ⟨"x", 12, 2, "Monthly"⟩]

/-- Annual-frequency frame where the Core Services category has a member
observation (`Shelter`) at date 1 but the designated representative
(`Services less energy services`) has none. -/
def dfC6 : List Row :=
  [⟨"All items", 0, 100, "Annual"⟩, ⟨"All items", 1, 100, "Annual"⟩,
   ⟨"Shelter", 0, 100, "Annual"⟩, ⟨"Shelter", 1, 110, "Annual"⟩]

/-- A series with exactly 3 observations. -/
def dfC7 : List Row :=
  [⟨"x", 0, 100, "Monthly"⟩, ⟨"x", 1, 110, "Monthly"⟩, ⟨"x", 2, 121, "Monthly"⟩]

/-- A series with exactly 5 observations. -/
def dfC7b : List Row :=
  [⟨"x", 0, 100, "Monthly"⟩, ⟨"x", 1, 101, "Monthly"⟩, ⟨"x", 2, 103, "Monthly"⟩,
   ⟨"x", 3, 106, "Monthly"⟩, ⟨"x", 4, 110, "Monthly"⟩]

/-- A series with 7 observations (enough for the two disjoint 3-point means). -/
def dfC7c : List Row :=
  [⟨"x", 0, 100, "Monthly"⟩, ⟨"x", 1, 101, "Monthly"⟩, ⟨"x", 2, 103, "Monthly"⟩,
   ⟨"x", 3, 106, "Monthly"⟩, ⟨"x", 4, 110, "Monthly"⟩, ⟨"x", 5, 115, "Monthly"⟩,
   ⟨"x", 6, 121, "Monthly"⟩]

/-- One contribution point used to exercise the category filter. -/
def ptC9 : CPoint := ⟨0, "Energy", 1, 2 / 25, 25 / 2, "#C73E1D", 3, none⟩

/-- The claimed volatility per the specification, tracked as its square: the
population variance of the most recent 12 month-over-month percentage
changes.

Modelled from the spec: "population standard deviation of the trailing
`mom_pct` sequence over the most recent 12 periods". -/
def claimedVolatilitySq (df : List Row) : ℚ :=
  let chs := (pctList ((sortByDate df).map (·.value))).map fun x => x * 100
  popVar (chs.drop (chs.length - 12))

/-! ## Helper lemmas -/

lemma insertByDate_length (r : Row) (l : List Row) :
    (insertByDate r l).length = l.length + 1 := by
  induction l with
  | nil => rfl
  | cons x xs ih =>
      unfold insertByDate
      split <;> simp [ih]

lemma sortByDate_length (l : List Row) : (sortByDate l).length = l.length := by
  induction l with
  | nil => rfl
  | cons x xs ih => simp [sortByDate, insertByDate_length, ih]

lemma sum_map_mul (l : List ℚ) (c : ℚ) :
    (l.map fun x => x * c).sum = l.sum * c := by
  induction l with
  | nil => simp
  | cons a t ih => simp [ih, add_mul]

lemma listMean_map_mul (l : List ℚ) (c : ℚ) :
    listMean (l.map fun x => x * c) = listMean l * c := by
  unfold listMean
  rw [List.length_map, sum_map_mul, mul_div_right_comm]

lemma sampleVar_map_mul (l : List ℚ) (c : ℚ) :
    sampleVar (l.map fun x => x * c) = sampleVar l * c ^ 2 := by
  unfold sampleVar
  rw [List.length_map, listMean_map_mul, List.map_map]
  have h1 : ((fun x => (x - listMean l * c) ^ 2) ∘ fun x => x * c) =
      fun x => (x - listMean l) ^ 2 * c ^ 2 := by
    funext x; simp [Function.comp]; ring
  rw [h1, show (fun x => (x - listMean l) ^ 2 * c ^ 2) =
      (fun y => y * c ^ 2) ∘ fun x => (x - listMean l) ^ 2 from rfl,
    ← List.map_map, sum_map_mul, mul_div_right_comm]

/-! ## Claims -/

/-- **C8**: an empty observation set yields an empty result from each engine
component (empty change-rate table, empty metrics dictionary, empty
contribution table) rather than an exception: all three embedded components
are total functions returning their empty value on `[]`. -/
theorem empty_input_empty_output :
    calculate_yoy_monthly_data [] = [] ∧
    calculate_inflation_metrics [] = emptyMetrics ∧
    ∀ (sel : Option (List String)) (start : Option ℕ),
      calculate_contribution_data_for_categories [] sel start = [] :=
  ⟨rfl, rfl, fun _ _ => rfl⟩

/-- **C9**: filtering a contribution table by an empty selection, or by a
selection none of whose names is a key of the category mapping, returns the
input table unchanged. -/
theorem filter_unmatched_returns_input (df : List CPoint) (sel : List String)
    (h : sel = [] ∨
      ∀ s ∈ sel, category_mapping.find? (fun q => decide (q.1 = s)) = none) :
    filter_contribution_by_categories df sel = df := by
  unfold filter_contribution_by_categories
  rcases h with h | h
  · subst h; simp
  · have hm : (sel.filterMap fun c =>
        (category_mapping.find? fun q => decide (q.1 = c)).map (·.2)) = [] :=
      List.filterMap_eq_nil_iff.mpr (fun c hc => by rw [h c hc]; rfl)
    simp [hm]

/-- **C9 witness**: a selection containing only an unknown name leaves a
one-point table unchanged. -/
theorem filter_unmatched_returns_input_witness :
    filter_contribution_by_categories [ptC9] ["Banana"] = [ptC9] :=
  filter_unmatched_returns_input [ptC9] ["Banana"] (Or.inr (by decide))

/-- **C10**: the inflation-trend classification is total and partitions the
rationals into exactly the four statuses by strict thresholds: above 3 high
inflation, above 1 up to 3 moderate, above 0 up to 1 low, 0 or below
deflation. -/
theorem trend_status_partition (y : ℚ) :
    get_inflation_trend_status y ∈
      ["⬆️ 高インフレ", "📈 適度", "📊 低水準", "⬇️ デフレ"] ∧
    (get_inflation_trend_status y = "⬆️ 高インフレ" ↔ 3 < y) ∧
    (get_inflation_trend_status y = "📈 適度" ↔ 1 < y ∧ y ≤ 3) ∧
    (get_inflation_trend_status y = "📊 低水準" ↔ 0 < y ∧ y ≤ 1) ∧
    (get_inflation_trend_status y = "⬇️ デフレ" ↔ y ≤ 0) := by
  unfold get_inflation_trend_status
  split_ifs with h1 h2 h3
  · exact ⟨by simp, iff_of_true rfl h1,
      iff_of_false (by decide) (fun hc => absurd h1 (by linarith [hc.2])),
      iff_of_false (by decide) (fun hc => absurd h1 (by linarith [hc.2])),
      iff_of_false (by decide) (by linarith)⟩
  · exact ⟨by simp, iff_of_false (by decide) h1,
      iff_of_true rfl ⟨h2, by linarith⟩,
      iff_of_false (by decide) (fun hc => absurd h2 (by linarith [hc.2])),
      iff_of_false (by decide) (by linarith)⟩
  · exact ⟨by simp, iff_of_false (by decide) h1,
      iff_of_false (by decide) (fun hc => absurd hc.1 h2),
      iff_of_true rfl ⟨h3, by linarith⟩,
      iff_of_false (by decide) (by linarith)⟩
  · exact ⟨by simp, iff_of_false (by decide) h1,
      iff_of_false (by decide) (fun hc => absurd hc.1 h2),
      iff_of_false (by decide) (fun hc => absurd hc.1 h3),
      iff_of_true rfl (by linarith)⟩

lemma yoyList_getElem? {N : ℕ} {v : List ℚ} {i : ℕ} (hi : i < v.length) :
    (yoyList N v)[i]? =
      some (if N ≤ i then some ((v.getD i 0 / v.getD (i - N) 0 - 1) * 100)
            else none) := by
  unfold yoyList pctChange
  rw [List.getElem?_map, List.getElem?_map, List.getElem?_range hi]
  by_cases hN : N ≤ i
  · simp [hN]
  · simp [hN]

lemma yoyList_getD_lt {N : ℕ} {v : List ℚ} {i : ℕ} (hi : i < v.length)
    (hN : i < N) : (yoyList N v).getD i none = none := by
  rw [List.getD_eq_getElem?_getD, yoyList_getElem? hi,
    if_neg (Nat.not_le.mpr hN), Option.getD_some]

lemma yoyList_getD_ge {N : ℕ} {v : List ℚ} {i : ℕ} (hi : i < v.length)
    (hN : N ≤ i) (hd : v.getD (i - N) 0 ≠ 0) :
    (yoyList N v).getD i none =
      some ((v.getD i 0 - v.getD (i - N) 0) / v.getD (i - N) 0 * 100) := by
  rw [List.getD_eq_getElem?_getD, yoyList_getElem? hi, if_pos hN,
    Option.getD_some, sub_div, div_self hd]

/-- **C2**: the frequency table maps Monthly to 12, Quarterly to 4,
Semi-annual to 2, Annual to 1, any unknown label to 12; and for every series
the year-over-year change at index `i` equals
`(level[i] - level[i-N]) / level[i-N] * 100` with `N` the frequency's period
count, and is absent for `i < N`. -/
theorem yoy_formula_spec :
    (get_periods_for_frequency "Monthly" = 12 ∧
     get_periods_for_frequency "Quarterly" = 4 ∧
     get_periods_for_frequency "Semi-annual" = 2 ∧
     get_periods_for_frequency "Annual" = 1) ∧
    (∀ f : String, f ∉ ["Monthly", "Quarterly", "Semi-annual", "Annual"] →
      get_periods_for_frequency f = 12) ∧
    (∀ (f : String) (v : List ℚ) (i : ℕ), i < v.length →
      (i < get_periods_for_frequency f →
        (yoyList (get_periods_for_frequency f) v).getD i none = none) ∧
      (get_periods_for_frequency f ≤ i →
        v.getD (i - get_periods_for_frequency f) 0 ≠ 0 →
        (yoyList (get_periods_for_frequency f) v).getD i none =
          some ((v.getD i 0 - v.getD (i - get_periods_for_frequency f) 0) /
            v.getD (i - get_periods_for_frequency f) 0 * 100))) := by
  refine ⟨⟨by simp [get_periods_for_frequency, FREQUENCY_PERIODS, List.find?],
      by simp [get_periods_for_frequency, FREQUENCY_PERIODS, List.find?],
      by simp [get_periods_for_frequency, FREQUENCY_PERIODS, List.find?],
      by simp [get_periods_for_frequency, FREQUENCY_PERIODS, List.find?]⟩, ?_, ?_⟩
  · intro f hf
    simp only [List.mem_cons, List.not_mem_nil, or_false, not_or] at hf
    obtain ⟨h1, h2, h3, h4⟩ := hf
    simp [get_periods_for_frequency, FREQUENCY_PERIODS, List.find?,
      Ne.symm h1, Ne.symm h2, Ne.symm h3, Ne.symm h4]
  · intro f v i hi
    exact ⟨fun hN => yoyList_getD_lt hi hN, fun hN hd => yoyList_getD_ge hi hN hd⟩

/-- **C2 witness**: an annual series `[100, 110]` at index 1 (lag `N = 1`) has
YoY `(110 - 100) / 100 * 100`. -/
theorem yoy_formula_spec_witness :
    (yoyList (get_periods_for_frequency "Annual") [(100 : ℚ), 110]).getD 1 none =
      some (([(100 : ℚ), 110].getD 1 0 -
          [(100 : ℚ), 110].getD (1 - get_periods_for_frequency "Annual") 0) /
        [(100 : ℚ), 110].getD (1 - get_periods_for_frequency "Annual") 0 * 100) :=
  ((yoy_formula_spec.2.2 "Annual" [(100 : ℚ), 110] 1 (by decide)).2
    (by decide) (by decide))

lemma foldl_min_le_init (x : ℚ) (xs : List ℚ) : xs.foldl min x ≤ x := by
  induction xs generalizing x with
  | nil => exact le_refl x
  | cons a t ih => exact le_trans (ih (min x a)) (min_le_left x a)

lemma foldl_min_le_mem {xs : List ℚ} {y : ℚ} (hy : y ∈ xs) (x : ℚ) :
    xs.foldl min x ≤ y := by
  induction xs generalizing x with
  | nil => cases hy
  | cons a t ih =>
      rcases List.mem_cons.mp hy with h | h
      · subst h
        exact le_trans (foldl_min_le_init (min x y) t) (min_le_right x y)
      · exact ih h (min x a)

lemma le_foldl_max_init (x : ℚ) (xs : List ℚ) : x ≤ xs.foldl max x := by
  induction xs generalizing x with
  | nil => exact le_refl x
  | cons a t ih => exact le_trans (le_max_left x a) (ih (max x a))

lemma mem_le_foldl_max {xs : List ℚ} {y : ℚ} (hy : y ∈ xs) (x : ℚ) :
    y ≤ xs.foldl max x := by
  induction xs generalizing x with
  | nil => cases hy
  | cons a t ih =>
      rcases List.mem_cons.mp hy with h | h
      · subst h
        exact le_trans (le_max_right x y) (le_foldl_max_init (max x y) t)
      · exact ih h (max x a)

lemma listMin_le_mem {l : List ℚ} {y : ℚ} (hy : y ∈ l) : listMin l ≤ y := by
  cases l with
  | nil => cases hy
  | cons x xs =>
      rcases List.mem_cons.mp hy with h | h
      · exact h ▸ foldl_min_le_init x xs
      · exact foldl_min_le_mem h x

lemma mem_le_listMax {l : List ℚ} {y : ℚ} (hy : y ∈ l) : y ≤ listMax l := by
  cases l with
  | nil => cases hy
  | cons x xs =>
      rcases List.mem_cons.mp hy with h | h
      · exact h ▸ le_foldl_max_init x xs
      · exact mem_le_foldl_max h x

lemma clampLo_le (lo : ℚ) : clampLo lo ≤ 1 / 10 := by
  unfold clampLo
  split_ifs with h
  · exact le_trans (min_le_right _ _) (by norm_num)
  · linarith

lemma le_clampHi (hi : ℚ) : -(1 / 10) ≤ clampHi hi := by
  unfold clampHi
  split_ifs with h
  · exact le_trans (by norm_num) (le_max_right _ _)
  · linarith

lemma clampLo_nonpos {lo : ℚ} (h : lo ≤ 0) : clampLo lo ≤ 0 := by
  unfold clampLo
  split_ifs with h1
  · exact le_trans (min_le_right _ _) (by norm_num)
  · exact h

lemma clampHi_nonneg {hi : ℚ} (h : 0 ≤ hi) : 0 ≤ clampHi hi := by
  unfold clampHi
  split_ifs with h1
  · exact le_trans (by norm_num) (le_max_right _ _)
  · exact h

lemma rawRange_fst_nonpos {ymin ymax : ℚ} (h : ymin ≤ 0) :
    (rawRange ymin ymax).1 ≤ 0 := by
  unfold rawRange
  split_ifs with h1
  · have := le_max_right ((ymax - ymin) * (15 / 100)) ((1 : ℚ) / 2)
    simp only
    linarith
  · simp only
    linarith

lemma rawRange_snd_nonneg {ymin ymax : ℚ} (h : 0 ≤ ymax) :
    0 ≤ (rawRange ymin ymax).2 := by
  unfold rawRange
  split_ifs with h1
  · have := le_max_right ((ymax - ymin) * (15 / 100)) ((1 : ℚ) / 2)
    simp only
    linarith
  · simp only
    linarith

/-- **C3 amended**: for every non-empty pooled input the chart range satisfies
`min ≤ 0.1` and `max ≥ -0.1`, and whenever the pooled values contain both a
value `≤ 0` and a value `≥ 0` the strict zero-inclusion `min ≤ 0 ≤ max`
holds.  (The claimed `min ≤ 0 ≤ max` for arbitrary one-sign inputs fails: the
zero-inclusion correction only fires when a bound exceeds `0.1` in
magnitude.) -/
theorem yrange_spec :
    (∀ values : List ℚ, validData values ≠ [] →
      (computeYRange values).1 ≤ 1 / 10 ∧ -(1 / 10) ≤ (computeYRange values).2) ∧
    (∀ values : List ℚ,
      (∃ x ∈ validData values, x ≤ 0) → (∃ x ∈ validData values, 0 ≤ x) →
      (computeYRange values).1 ≤ 0 ∧ 0 ≤ (computeYRange values).2) := by
  constructor
  · intro values hne
    have hv : (validData values).isEmpty = false := List.isEmpty_eq_false.mpr hne
    unfold computeYRange
    rw [hv]
    simp only [Bool.false_eq_true, if_false]
    exact ⟨clampLo_le _, le_clampHi _⟩
  · intro values hneg hpos
    obtain ⟨y, hy, hy0⟩ := hneg
    obtain ⟨z, hz, hz0⟩ := hpos
    have hne : (validData values).isEmpty = false :=
      List.isEmpty_eq_false.mpr (fun h => by rw [h] at hy; cases hy)
    unfold computeYRange
    rw [hne]
    simp only [Bool.false_eq_true, if_false]
    exact ⟨clampLo_nonpos (rawRange_fst_nonpos (le_trans (listMin_le_mem hy) hy0)),
      clampHi_nonneg (rawRange_snd_nonneg (le_trans hz0 (mem_le_listMax hz)))⟩

/-- **C3 witness**: the input `[1.05]` is non-empty after pooling and
satisfies the amended bounds. -/
theorem yrange_spec_witness :
    (computeYRange [(21 : ℚ) / 20]).1 ≤ 1 / 10 ∧
    -(1 / 10) ≤ (computeYRange [(21 : ℚ) / 20]).2 :=
  yrange_spec.1 [(21 : ℚ) / 20] (by norm_num [validData, absQ, List.filter])

/-- **C3 counterexample**: the all-positive pooled input `[1.05]` yields a
lower bound `0.05 > 0`, violating the claimed `min ≤ 0 ≤ max`. -/
theorem yrange_counterexample :
    validData [(21 : ℚ) / 20] ≠ [] ∧ 0 < (computeYRange [(21 : ℚ) / 20]).1 := by
  constructor
  · norm_num [validData, absQ, List.filter]
  · have hv : validData [(21 : ℚ) / 20] = [(21 : ℚ) / 20] := by
      norm_num [validData, absQ, List.filter]
    have h1 : listMin [(21 : ℚ) / 20] = 21 / 20 := rfl
    have h2 : listMax [(21 : ℚ) / 20] = 21 / 20 := rfl
    unfold computeYRange
    rw [hv, h1, h2]
    norm_num [List.isEmpty_cons, rawRange, clampLo]

lemma sorted_values_length (df : List Row) :
    ((sortByDate df).map (·.value)).length = df.length := by
  rw [List.length_map, sortByDate_length]

/-- **C5 amended**: the volatility metric is reported exactly when the series
has at least 12 data points, and when reported it equals the *sample*
standard deviation (ddof 1) of the month-over-month percentage changes over
the *entire* series, not the population standard deviation over the most
recent 12 periods (stated on squares: `volatility_sq` is the squared metric,
and the right-hand side is the sample variance of the percentage changes). -/
theorem volatility_spec (df : List Row) :
    ((calculate_inflation_metrics df).volatility_sq.isSome ↔ 12 ≤ df.length) ∧
    (12 ≤ df.length →
      (calculate_inflation_metrics df).volatility_sq =
        some (sampleVar ((pctList ((sortByDate df).map (·.value))).map
          fun x => x * 100))) := by
  by_cases hd : df.isEmpty
  · have hdf : df = [] := List.isEmpty_iff.mp hd
    subst hdf
    exact ⟨by simp [calculate_inflation_metrics, emptyMetrics], fun h => by simp at h⟩
  · unfold calculate_inflation_metrics
    rw [if_neg hd]
    simp only [sorted_values_length]
    constructor
    · by_cases h12 : 12 ≤ df.length
      · simp [h12]
      · simp [h12]
    · intro h12
      rw [if_pos h12, sampleVar_map_mul]
      norm_num

/-- **C5 witness**: the 13-point series `dfC5` reports a volatility equal to
the sample variance of all its month-over-month percentage changes. -/
theorem volatility_spec_witness :
    (calculate_inflation_metrics dfC5).volatility_sq =
      some (sampleVar ((pctList ((sortByDate dfC5).map (·.value))).map
        fun x => x * 100)) :=
  (volatility_spec dfC5).2 (by norm_num [dfC5])

/-- **C5 counterexample**: on the 13-point series `dfC5` the code's
volatility (squared: `2500/3`) differs from the claimed population standard
deviation of the most recent 12 month-over-month percentage changes
(squared: `6875/9`); since both metrics are nonnegative and squaring is
injective on nonnegatives, the unsquared values differ as well. -/
theorem volatility_counterexample :
    12 ≤ dfC5.length ∧
    (calculate_inflation_metrics dfC5).volatility_sq ≠
      some (claimedVolatilitySq dfC5) := by
  have hs : sortByDate dfC5 = dfC5 := by simp [dfC5, sortByDate, insertByDate]
  have hp : pctList [(1 : ℚ), 2, 2, 2, 2, 2, 2, 2, 2, 2, 2, 2, 2] =
      [1, 0, 0, 0, 0, 0, 0, 0, 0, 0, 0, 0] := by
    unfold pctList pctChange
    norm_num [List.getD, List.filterMap]
  have h1 : (calculate_inflation_metrics dfC5).volatility_sq = some (2500 / 3) := by
    unfold calculate_inflation_metrics
    rw [hs]
    norm_num [dfC5, hp, sampleVar, listMean]
  have h2 : claimedVolatilitySq dfC5 = 6875 / 9 := by
    unfold claimedVolatilitySq
    rw [hs]
    norm_num [dfC5, hp, popVar, listMean]
  refine ⟨by norm_num [dfC5], ?_⟩
  rw [h1, h2]
  intro h
  rw [Option.some.injEq] at h
  norm_num at h

/-- **C7 amended**: the 3-month average change metric is reported exactly
when the series has at least 4 data points (a 3-point series reports
nothing); with at least 6 points it equals the percentage difference between
the mean of the last 3 values and the mean of the 3 preceding values, and
with 4 or 5 points it reuses the last-3 mean as the baseline, yielding 0. -/
theorem quarterly_change_spec (df : List Row) :
    (6 ≤ df.length →
      (calculate_inflation_metrics df).quarterly_change =
        some ((listMean (((sortByDate df).map (·.value)).drop (df.length - 3)) -
            listMean ((((sortByDate df).map (·.value)).drop (df.length - 6)).take 3)) /
          listMean ((((sortByDate df).map (·.value)).drop (df.length - 6)).take 3) *
          100)) ∧
    (df.length = 4 ∨ df.length = 5 →
      (calculate_inflation_metrics df).quarterly_change = some 0) ∧
    (df.length ≤ 3 →
      (calculate_inflation_metrics df).quarterly_change = none) := by
  by_cases hd : df.isEmpty
  · have hdf : df = [] := List.isEmpty_iff.mp hd
    subst hdf
    exact ⟨fun h => by simp at h, fun h => by simp at h,
      fun _ => by simp [calculate_inflation_metrics, emptyMetrics]⟩
  · unfold calculate_inflation_metrics
    rw [if_neg hd]
    simp only [sorted_values_length]
    refine ⟨fun h6 => ?_, fun h45 => ?_, fun h3 => ?_⟩
    · rw [if_pos (by omega : 4 ≤ df.length), if_pos h6]
    · rw [if_pos (by omega : 4 ≤ df.length), if_neg (by omega : ¬6 ≤ df.length)]
      rw [sub_self, zero_div, zero_mul]
    · rw [if_neg (by omega : ¬4 ≤ df.length)]

/-- **C7 witness**: a 5-point series reports a 3-month average change of 0
(the last-3 mean reused as baseline), and a 7-point series reports the
two-window formula. -/
theorem quarterly_change_spec_witness :
    (calculate_inflation_metrics dfC7b).quarterly_change = some 0 :=
  (quarterly_change_spec dfC7b).2.1 (by norm_num [dfC7b])

/-- **C7 counterexample**: a series with exactly 3 points reports no 3-month
average change at all, contradicting the claim that 3-point series still
report the metric. -/
theorem quarterly_change_counterexample :
    dfC7.length = 3 ∧
    (calculate_inflation_metrics dfC7).quarterly_change = none := by
  have hs : sortByDate dfC7 = dfC7 := by simp [dfC7, sortByDate, insertByDate]
  refine ⟨by norm_num [dfC7], ?_⟩
  unfold calculate_inflation_metrics
  rw [hs]
  norm_num [dfC7]

lemma emitPoint_eq_some {df : List Row} {periods : ℕ} {showCore : Bool}
    {coreSorted : List Row} {coreYoYs : List (Option ℚ)} {start : Option ℕ}
    {date : ℕ} {ay : ℚ} {cat : CategoryInfo} {p : CPoint}
    (h : emitPoint df periods showCore coreSorted coreYoYs start date ay cat =
      some p) :
    ∃ rep yoy, repName cat.name = some rep ∧
      (∃ r ∈ df, r.date = date ∧ r.product = rep) ∧
      categoryYoY df periods rep date = some yoy ∧
      startOk start date = true ∧
      p.date = date ∧ p.category = cat.name ∧ p.weight = cat.weight ∧
      p.yoyChange = yoy ∧ p.contribution = cat.weight * yoy ∧
      p.allItemsYoY = ay := by
  unfold emitPoint at h
  by_cases h1 : ((df.filter fun r => decide (r.date = date)).filter
      fun r => decide (r.product ∈ cat.products)).isEmpty
  · rw [if_pos h1] at h; exact absurd h (by simp)
  rw [if_neg h1] at h
  cases hrep : repName cat.name with
  | none => rw [hrep] at h; exact absurd h (by simp)
  | some rep =>
      rw [hrep] at h
      dsimp only at h
      by_cases h2 : ((df.filter fun r => decide (r.date = date)).filter
          fun r => decide (r.product ∈ cat.products)).any
            (fun r => decide (r.product = rep)) = true
      · rw [if_pos h2] at h
        cases hcy : categoryYoY df periods rep date with
        | none => rw [hcy] at h; exact absurd h (by simp)
        | some yoy =>
            rw [hcy] at h
            dsimp only at h
            by_cases h3 : startOk start date = true
            · rw [if_pos h3] at h
              obtain ⟨r, hr, hpr⟩ := List.any_eq_true.mp h2
              obtain ⟨hr2, hprod⟩ := List.mem_filter.mp hr
              obtain ⟨hrdf, hdate⟩ := List.mem_filter.mp hr2
              rw [Option.some.injEq] at h
              subst h
              exact ⟨rep, yoy, rfl, ⟨r, hrdf, of_decide_eq_true hdate,
                of_decide_eq_true hpr⟩, hcy, h3, rfl, rfl, rfl, rfl, rfl, rfl⟩
            · rw [if_neg h3] at h; exact absurd h (by simp)
      · rw [if_neg h2] at h; exact absurd h (by simp)

lemma mem_calculate {df : List Row} {sel : Option (List String)}
    {start : Option ℕ} {p : CPoint}
    (hp : p ∈ calculate_contribution_data_for_categories df sel start) :
    ∃ date ∈ datesOf df, ∃ ay, allItemsYoYAt df date = some ay ∧
      ∃ cat ∈ CPI_CONTRIBUTION_CATEGORIES,
        emitPoint df (periodsOf df) (showCoreOf sel) (coreSortedOf sel df)
          (coreYoYsOf sel df) start date ay cat = some p := by
  unfold calculate_contribution_data_for_categories at hp
  by_cases h0 : df.isEmpty
  · rw [if_pos h0] at hp; cases hp
  rw [if_neg h0] at hp
  by_cases h1 : (allItemsOf df).isEmpty
  · rw [if_pos h1] at hp; cases hp
  rw [if_neg h1] at hp
  obtain ⟨date, hdate, hmem⟩ := List.mem_flatMap.mp hp
  cases hay : allItemsYoYAt df date with
  | none => rw [hay] at hmem; cases hmem
  | some ay =>
      rw [hay] at hmem
      dsimp only at hmem
      obtain ⟨cat, hcat, hemit⟩ := List.mem_filterMap.mp hmem
      exact ⟨date, hdate, ay, hay, cat, hcat, hemit⟩

lemma mem_calculate_of {df : List Row} {sel : Option (List String)}
    {start : Option ℕ} {date : ℕ} {ay : ℚ} {cat : CategoryInfo} {p : CPoint}
    (h0 : df.isEmpty = false) (h1 : (allItemsOf df).isEmpty = false)
    (hd : date ∈ datesOf df) (hay : allItemsYoYAt df date = some ay)
    (hcat : cat ∈ CPI_CONTRIBUTION_CATEGORIES)
    (hemit : emitPoint df (periodsOf df) (showCoreOf sel) (coreSortedOf sel df)
      (coreYoYsOf sel df) start date ay cat = some p) :
    p ∈ calculate_contribution_data_for_categories df sel start := by
  unfold calculate_contribution_data_for_categories
  rw [if_neg (by simp [h0]), if_neg (by simp [h1])]
  refine List.mem_flatMap.mpr ⟨date, hd, ?_⟩
  rw [hay]
  exact List.mem_filterMap.mpr ⟨cat, hcat, hemit⟩

/-- **C1**: every emitted contribution point carries the configured weight of
its category and a contribution equal to that weight times the
representative entity's own year-over-year change at that timestamp (the
point's `YoY_Change`, recomputed from the representative's full history). -/
theorem contribution_eq_weight_mul_yoy (df : List Row)
    (sel : Option (List String)) (start : Option ℕ) (p : CPoint)
    (hp : p ∈ calculate_contribution_data_for_categories df sel start) :
    ∃ cat ∈ CPI_CONTRIBUTION_CATEGORIES,
      p.category = cat.name ∧ p.weight = cat.weight ∧
      p.contribution = cat.weight * p.yoyChange ∧
      ∃ rep, repName cat.name = some rep ∧
        categoryYoY df (periodsOf df) rep p.date = some p.yoyChange := by
  obtain ⟨date, _, ay, _, cat, hcat, hemit⟩ := mem_calculate hp
  obtain ⟨rep, yoy, hrep, _, hyoy, _, hpdate, hpcat, hpw, hpy, hpc, _⟩ :=
    emitPoint_eq_some hemit
  refine ⟨cat, hcat, hpcat, hpw, ?_, rep, hrep, ?_⟩
  · rw [hpc, hpy]
  · rw [hpdate, hpy]
    exact hyoy

/-- **C6**: if a category's designated representative entity has no
observation at a timestamp, no contribution point is emitted for that
category at that timestamp, even when other member entities have
observations there. -/
theorem missing_representative_omitted (df : List Row)
    (sel : Option (List String)) (start : Option ℕ)
    (name rep : String) (date : ℕ)
    (hrep : repName name = some rep)
    (habsent : ∀ r ∈ df, ¬(r.product = rep ∧ r.date = date)) :
    ∀ p ∈ calculate_contribution_data_for_categories df sel start,
      ¬(p.category = name ∧ p.date = date) := by
  rintro p hp ⟨hpc, hpd⟩
  obtain ⟨d, _, ay, _, cat, _, hemit⟩ := mem_calculate hp
  obtain ⟨rep2, yoy, hrep2, ⟨r, hr, hrd, hrp⟩, _, _, hpdate, hpcat, _⟩ :=
    emitPoint_eq_some hemit
  rw [hpcat] at hpc
  rw [hpc] at hrep2
  rw [hrep] at hrep2
  rw [Option.some.injEq] at hrep2
  exact habsent r hr ⟨hrep2 ▸ hrp, by rw [hrd, ← hpdate, hpd]⟩

/-- **C4 amended**: the engine does not guard change-rate denominators: when a
category's representative has a zero or non-positive prior level (the
denominator of its change rate), the point is *not* omitted — whenever the
remaining emission conditions hold, a contribution point for that category
and timestamp is still emitted, with the division carried out by the
(total) rational division of the model; no exception is raised (the source's
float division yields a non-finite value rather than raising). -/
theorem nonpositive_prior_still_emitted (df : List Row)
    (sel : Option (List String)) (start : Option ℕ) (date : ℕ)
    (cat : CategoryInfo) (rep : String) (ay : ℚ)
    (h0 : df.isEmpty = false) (h1 : (allItemsOf df).isEmpty = false)
    (hd : date ∈ datesOf df) (hay : allItemsYoYAt df date = some ay)
    (hcat : cat ∈ CPI_CONTRIBUTION_CATEGORIES)
    (hrep : repName cat.name = some rep)
    (hany : ((df.filter fun r => decide (r.date = date)).filter
        fun r => decide (r.product ∈ cat.products)).any
          (fun r => decide (r.product = rep)) = true)
    (hhist : periodsOf df + 1 ≤ (histOf df rep date).length)
    (hstart : startOk start date = true)
    (hnonpos : priorLevel df (periodsOf df) rep date ≤ 0) :
    ∃ p ∈ calculate_contribution_data_for_categories df sel start,
      p.category = cat.name ∧ p.date = date := by
  have hne : ¬(((df.filter fun r => decide (r.date = date)).filter
      fun r => decide (r.product ∈ cat.products)).isEmpty = true) := by
    obtain ⟨r, hr, _⟩ := List.any_eq_true.mp hany
    intro hE
    rw [List.isEmpty_iff] at hE
    rw [hE] at hr
    cases hr
  have hcy : categoryYoY df (periodsOf df) rep date =
      some ((((histOf df rep date).map (·.value)).getD
          (((histOf df rep date).map (·.value)).length - 1) 0 /
            priorLevel df (periodsOf df) rep date - 1) * 100) := by
    unfold categoryYoY
    rw [if_pos hhist]
  have hemit : emitPoint df (periodsOf df) (showCoreOf sel) (coreSortedOf sel df)
      (coreYoYsOf sel df) start date ay cat =
      some ⟨date, cat.name,
        cat.weight * ((((histOf df rep date).map (·.value)).getD
            (((histOf df rep date).map (·.value)).length - 1) 0 /
              priorLevel df (periodsOf df) rep date - 1) * 100),
        cat.weight,
        ((((histOf df rep date).map (·.value)).getD
            (((histOf df rep date).map (·.value)).length - 1) 0 /
              priorLevel df (periodsOf df) rep date - 1) * 100),
        cat.color, ay,
        if showCoreOf sel && !(coreSortedOf sel df).isEmpty then
          yoyAt (coreSortedOf sel df) (coreYoYsOf sel df) date
        else none⟩ := by
    unfold emitPoint
    rw [if_neg hne, hrep]
    dsimp only
    rw [if_pos hany, hcy]
    dsimp only
    rw [if_pos hstart]
  exact ⟨_, mem_calculate_of h0 h1 hd hay hcat hemit, rfl, rfl⟩

lemma dfC1_allItems : allItemsOf dfC1 =
    [⟨"All items", 0, 100, "Annual"⟩, ⟨"All items", 1, 100, "Annual"⟩] := by
  simp [allItemsOf, dfC1, List.filter]

lemma dfC1_allSorted : allSortedOf dfC1 =
    [⟨"All items", 0, 100, "Annual"⟩, ⟨"All items", 1, 100, "Annual"⟩] := by
  simp [allSortedOf, dfC1_allItems, sortByDate, insertByDate]

lemma dfC1_periods : periodsOf dfC1 = 1 := by
  simp [periodsOf, dfC1, get_periods_for_frequency, FREQUENCY_PERIODS, List.find?]

lemma dfC1_allYoYs : allYoYsOf dfC1 = [none, some 0] := by
  unfold allYoYsOf
  rw [dfC1_allSorted, dfC1_periods]
  norm_num [yoyList, pctChange, List.getD, List.range_succ, List.range_zero]

lemma dfC1_dates : datesOf dfC1 = [0, 1] := by
  simp [datesOf, dfC1_allSorted, uniqueFirst, uniqueAux]

lemma dfC1_yoyAt1 : allItemsYoYAt dfC1 1 = some 0 := by
  unfold allItemsYoYAt
  rw [dfC1_allSorted, dfC1_allYoYs]
  norm_num [yoyAt, List.find?, List.zip, List.zipWith]

lemma dfC1_coreSorted : coreSortedOf none dfC1 = [] := by
  simp [coreSortedOf, showCoreOf, dfC1, List.filter, sortByDate]

lemma dfC1_coreYoYs : coreYoYsOf none dfC1 = [] := by
  unfold coreYoYsOf
  rw [dfC1_coreSorted]
  norm_num [yoyList, pctChange]

lemma dfC1_catYoY : categoryYoY dfC1 1 "Energy" 1 = some 10 := by
  have hh : histOf dfC1 "Energy" 1 =
      [⟨"Energy", 0, 100, "Annual"⟩, ⟨"Energy", 1, 110, "Annual"⟩] := by
    simp [histOf, dfC1, List.filter, sortByDate, insertByDate]
  unfold categoryYoY priorLevel
  rw [hh]
  norm_num [List.getD]

lemma dfC1_emit : emitPoint dfC1 1 true [] [] none 1 0 energyCategory =
    some ptC1 := by
  unfold emitPoint
  rw [if_neg (by simp [dfC1, energyCategory, List.filter]),
    show repName energyCategory.name = some "Energy" by simp [repName, energyCategory]]
  dsimp only
  rw [if_pos (by simp [dfC1, energyCategory, List.filter, List.any]), dfC1_catYoY]
  dsimp only
  norm_num [startOk, energyCategory, ptC1, CPoint.mk.injEq]

lemma ptC1_mem : ptC1 ∈ calculate_contribution_data_for_categories dfC1 none none := by
  have hemit : emitPoint dfC1 (periodsOf dfC1) (showCoreOf none)
      (coreSortedOf none dfC1) (coreYoYsOf none dfC1) none 1 0 energyCategory =
      some ptC1 := by
    rw [dfC1_periods, dfC1_coreSorted, dfC1_coreYoYs]
    exact dfC1_emit
  exact @mem_calculate_of dfC1 none none 1 0 energyCategory ptC1
    (by simp [dfC1]) (by rw [dfC1_allItems]; simp) (by rw [dfC1_dates]; simp)
    dfC1_yoyAt1 (by simp [CPI_CONTRIBUTION_CATEGORIES, energyCategory]) hemit

/-- **C1 witness**: on `dfC1` the Energy category (weight `0.08`) with a
representative YoY of exactly `10.0%` emits a contribution of exactly
`0.8` percentage points, and the general theorem applies to that point. -/
theorem contribution_eq_weight_mul_yoy_witness :
    ptC1 ∈ calculate_contribution_data_for_categories dfC1 none none ∧
    ptC1.weight = 8 / 100 ∧ ptC1.yoyChange = 10 ∧
    ptC1.contribution = (8 / 100) * 10 ∧
    ∃ cat ∈ CPI_CONTRIBUTION_CATEGORIES,
      ptC1.category = cat.name ∧ ptC1.weight = cat.weight ∧
      ptC1.contribution = cat.weight * ptC1.yoyChange ∧
      ∃ rep, repName cat.name = some rep ∧
        categoryYoY dfC1 (periodsOf dfC1) rep ptC1.date = some ptC1.yoyChange :=
  ⟨ptC1_mem, by norm_num [ptC1], by norm_num [ptC1], by norm_num [ptC1],
    contribution_eq_weight_mul_yoy dfC1 none none ptC1 ptC1_mem⟩

lemma dfC4_allItems : allItemsOf dfC4 =
    [⟨"All items", 0, 100, "Annual"⟩, ⟨"All items", 1, 100, "Annual"⟩] := by
  simp [allItemsOf, dfC4, List.filter]

lemma dfC4_allSorted : allSortedOf dfC4 =
    [⟨"All items", 0, 100, "Annual"⟩, ⟨"All items", 1, 100, "Annual"⟩] := by
  simp [allSortedOf, dfC4_allItems, sortByDate, insertByDate]

lemma dfC4_periods : periodsOf dfC4 = 1 := by
  simp [periodsOf, dfC4, get_periods_for_frequency, FREQUENCY_PERIODS, List.find?]

lemma dfC4_allYoYs : allYoYsOf dfC4 = [none, some 0] := by
  unfold allYoYsOf
  rw [dfC4_allSorted, dfC4_periods]
  norm_num [yoyList, pctChange, List.getD, List.range_succ, List.range_zero]

lemma dfC4_dates : datesOf dfC4 = [0, 1] := by
  simp [datesOf, dfC4_allSorted, uniqueFirst, uniqueAux]

lemma dfC4_yoyAt1 : allItemsYoYAt dfC4 1 = some 0 := by
  unfold allItemsYoYAt
  rw [dfC4_allSorted, dfC4_allYoYs]
  norm_num [yoyAt, List.find?, List.zip, List.zipWith]

lemma dfC4_hist : histOf dfC4 "Energy" 1 =
    [⟨"Energy", 0, 0, "Annual"⟩, ⟨"Energy", 1, 100, "Annual"⟩] := by
  simp [histOf, dfC4, List.filter, sortByDate, insertByDate]

lemma dfC4_prior : priorLevel dfC4 (periodsOf dfC4) "Energy" 1 = 0 := by
  unfold priorLevel
  rw [dfC4_hist, dfC4_periods]
  norm_num [List.getD]

/-- **C4 witness**: on `dfC4` the Energy representative's prior level is `0`
(a would-be division by zero), every other emission condition holds, and the
amended theorem yields an emitted Energy point at date 1. -/
theorem nonpositive_prior_still_emitted_witness :
    priorLevel dfC4 (periodsOf dfC4) "Energy" 1 ≤ 0 ∧
    ∃ p ∈ calculate_contribution_data_for_categories dfC4 none none,
      p.category = energyCategory.name ∧ p.date = 1 := by
  have hnp : priorLevel dfC4 (periodsOf dfC4) "Energy" 1 ≤ 0 := by
    rw [dfC4_prior]
  refine ⟨hnp, nonpositive_prior_still_emitted dfC4 none none 1 energyCategory
    "Energy" 0 (by simp [dfC4]) (by rw [dfC4_allItems]; simp)
    (by rw [dfC4_dates]; simp) dfC4_yoyAt1
    (by simp [CPI_CONTRIBUTION_CATEGORIES, energyCategory])
    (by simp [repName, energyCategory])
    (by simp [dfC4, energyCategory, List.filter, List.any])
    (by rw [dfC4_periods, dfC4_hist]; simp) rfl hnp⟩

/-- The point the engine emits for `dfC4` at date 1: the unguarded division
`100 / 0` is modelled by total rational division (`= 0`), giving a YoY of
`-100` and a contribution of `-8`; in the source's float arithmetic the same
point is emitted with a non-finite value.  Either way it is emitted. -/
def ptC4 : CPoint := ⟨1, "Energy", -8, 2 / 25, -100, "#C73E1D", 0, none⟩

lemma dfC4_catYoY : categoryYoY dfC4 1 "Energy" 1 = some (-100) := by
  unfold categoryYoY priorLevel
  rw [dfC4_hist]
  norm_num [List.getD]

lemma dfC4_coreSorted : coreSortedOf none dfC4 = [] := by
  simp [coreSortedOf, showCoreOf, dfC4, List.filter, sortByDate]

lemma dfC4_coreYoYs : coreYoYsOf none dfC4 = [] := by
  unfold coreYoYsOf
  rw [dfC4_coreSorted]
  norm_num [yoyList, pctChange]

lemma dfC4_emit : emitPoint dfC4 1 true [] [] none 1 0 energyCategory =
    some ptC4 := by
  unfold emitPoint
  rw [if_neg (by simp [dfC4, energyCategory, List.filter]),
    show repName energyCategory.name = some "Energy" by simp [repName, energyCategory]]
  dsimp only
  rw [if_pos (by simp [dfC4, energyCategory, List.filter, List.any]), dfC4_catYoY]
  dsimp only
  norm_num [startOk, energyCategory, ptC4, CPoint.mk.injEq]

/-- **C4 counterexample**: on `dfC4` the Energy change-rate denominator at
date 1 is `0` (non-positive), yet the engine emits an Energy point at date 1
— the affected data point is *not* omitted, refuting the claim as stated. -/
theorem nonpositive_prior_counterexample :
    priorLevel dfC4 (periodsOf dfC4) "Energy" 1 = 0 ∧
    ∃ p ∈ calculate_contribution_data_for_categories dfC4 none none,
      p.category = "Energy" ∧ p.date = 1 := by
  refine ⟨dfC4_prior, ptC4, ?_, rfl, rfl⟩
  have hemit : emitPoint dfC4 (periodsOf dfC4) (showCoreOf none)
      (coreSortedOf none dfC4) (coreYoYsOf none dfC4) none 1 0 energyCategory =
      some ptC4 := by
    rw [dfC4_periods, dfC4_coreSorted, dfC4_coreYoYs]
    exact dfC4_emit
  exact @mem_calculate_of dfC4 none none 1 0 energyCategory ptC4
    (by simp [dfC4]) (by rw [dfC4_allItems]; simp) (by rw [dfC4_dates]; simp)
    dfC4_yoyAt1 (by simp [CPI_CONTRIBUTION_CATEGORIES, energyCategory]) hemit

/-- **C6 witness**: in `dfC6` the Core Services member `Shelter` has
observations at date 1 but the designated representative
`Services less energy services` has none, and no Core Services point is
emitted at date 1. -/
theorem missing_representative_omitted_witness :
    (∀ r ∈ dfC6, ¬(r.product = "Services less energy services" ∧ r.date = 1)) ∧
    (∃ r ∈ dfC6, r.product = "Shelter" ∧ r.date = 1) ∧
    ∀ p ∈ calculate_contribution_data_for_categories dfC6 none none,
      ¬(p.category = "Core Services" ∧ p.date = 1) := by
  have habs : ∀ r ∈ dfC6, ¬(r.product = "Services less energy services" ∧ r.date = 1) := by
    intro r hr
    simp only [dfC6, List.mem_cons, List.not_mem_nil, or_false] at hr
    rcases hr with h | h | h | h <;> subst h <;> simp
  refine ⟨habs, ⟨⟨"Shelter", 1, 110, "Annual"⟩, by simp [dfC6], rfl, rfl⟩, ?_⟩
  exact missing_representative_omitted dfC6 none none "Core Services"
    "Services less energy services" 1 (by simp [repName]) habs
